/-
  Verification of the double-entry ledger engine of the AccountingAPI
  repository (Django): a shallow embedding of the accounting data model
  (`accounting/models/accounts.py`, `accounting/models/transactions.py`)
  and of the service layer (`accounting/services/transaction_service.py`,
  `accounting/services/report_generator.py`).

  Modelling conventions:
  * `Decimal` amounts become `ℤ` (exact arithmetic, as `decimal.Decimal`).
  * `date` values become `ℤ` (a day count; only order and day arithmetic
    on dates are used by the code).
  * Database rows become entries of lists held in a `State` record;
    primary keys are `ℕ`, allocated from a `nextId` counter.
  * Queries (`objects.filter`, `objects.get`) become `List.filter` /
    `List.find?` over those lists.
  * `django.db.transaction.atomic` blocks become `Except`-valued
    functions: on `.error` no state is produced, which is exactly the
    rollback semantics; `…State` wrappers return the unchanged input
    state in that case (the database after the failed call).
  * Python exceptions (`ValidationError`, attribute errors) become the
    constructors of `VErr` / `SvcErr`.
-/

import Mathlib

namespace AccountingAPI

/-- `Account.BALANCE_TYPE_CHOICES` (accounts.py): DEBIT / CREDIT. -/
inductive BalanceType where
  | DEBIT
  | CREDIT
deriving DecidableEq, Repr

/-- `Transaction.STATUS_CHOICES` (transactions.py). -/
inductive Status where
  | PENDING
  | POSTED
  | VOIDED
  | DRAFT
deriving DecidableEq, Repr

/-- A row of `accounting.Account` (accounts.py), restricted to the fields
the verified operations read or write. -/
structure Account where
  accId : Nat
  balance_type : BalanceType
  opening_balance : ℤ
  current_balance : ℤ
  is_active : Bool
  allow_posting : Bool
  is_deleted : Bool
deriving DecidableEq, Repr

/-- A row of `accounting.Transaction` (transactions.py), restricted to the
fields the verified operations read or write. -/
structure Txn where
  txId : Nat
  transaction_date : ℤ
  amount : ℤ
  status : Status
  is_posted : Bool
deriving DecidableEq, Repr

/-- A row of `accounting.JournalEntry` (transactions.py). -/
structure JournalEntry where
  entryId : Nat
  txId : Nat
  amount : ℤ
deriving DecidableEq, Repr

/-- A row of `accounting.JournalItem` (transactions.py). -/
structure JournalItem where
  itemId : Nat
  entryId : Nat
  accId : Nat
  debit_amount : ℤ
  credit_amount : ℤ
deriving DecidableEq, Repr

/-- The database: one list per table, plus a fresh-primary-key counter. -/
structure State where
  accounts : List Account
  transactions : List Txn
  entries : List JournalEntry
  items : List JournalItem
  nextId : Nat
deriving DecidableEq, Repr

/-- `Account.objects.get(pk=aid)` / `item.account`. -/
def getAccount (s : State) (aid : Nat) : Option Account :=
  s.accounts.find? (fun a => a.accId == aid)

/-- Fetch a `Transaction` row by primary key. -/
def getTxn (s : State) (tid : Nat) : Option Txn :=
  s.transactions.find? (fun t => t.txId == tid)

/-- `transaction.journal_entries.all()`. -/
def entriesOf (s : State) (tid : Nat) : List JournalEntry :=
  s.entries.filter (fun e => e.txId == tid)

/-- `entry.items.all()`. -/
def itemsOf (s : State) (eid : Nat) : List JournalItem :=
  s.items.filter (fun it => it.entryId == eid)

/-- The `JournalEntry` a `JournalItem` belongs to (`item.journal_entry`). -/
def entryOfItem (s : State) (it : JournalItem) : Option JournalEntry :=
  s.entries.find? (fun e => e.entryId == it.entryId)

/-- `item.journal_entry.transaction`. -/
def txnOfItem (s : State) (it : JournalItem) : Option Txn :=
  match entryOfItem s it with
  | none => none
  | some e => getTxn s e.txId

/-- `Account.is_debit_balance` (accounts.py): `balance_type == DEBIT`. -/
def Account.is_debit_balance (a : Account) : Bool :=
  a.balance_type == BalanceType.DEBIT

/-- `Account.can_post_transactions` (accounts.py):
`is_active and allow_posting and not is_deleted`. -/
def Account.can_post_transactions (a : Account) : Bool :=
  a.is_active && a.allow_posting && !a.is_deleted

/-- The `JournalItem.objects.filter(account=…, journal_entry__transaction__is_posted=True
[, journal_entry__transaction__transaction_date__lte=as_of_date])` query used
by `Account.get_balance` (accounts.py lines 210-220). -/
def postedItems (s : State) (aid : Nat) (asOf : Option ℤ) : List JournalItem :=
  s.items.filter (fun it =>
    it.accId == aid &&
    (match txnOfItem s it with
     | none => false
     | some t =>
       t.is_posted &&
       (match asOf with
        | none => true
        | some d => decide (t.transaction_date ≤ d))))

/-- One step of the balance loop of `Account.get_balance` (accounts.py
lines 222-226): `if item.debit_amount > 0: balance += item.debit_amount
else: balance -= item.credit_amount`. -/
def balanceStep (b : ℤ) (it : JournalItem) : ℤ :=
  if it.debit_amount > 0 then b + it.debit_amount else b - it.credit_amount

/-- `Account.get_balance(as_of_date)` (accounts.py lines 196-234): fold the
posted journal items of the account onto `opening_balance`, then negate the
result when `balance_type == CREDIT`. -/
def get_balance (s : State) (a : Account) (asOf : Option ℤ) : ℤ :=
  let balance := (postedItems s a.accId asOf).foldl balanceStep a.opening_balance
  if a.balance_type == BalanceType.CREDIT then -balance else balance

/-- The balance algorithm as the SPEC states it (spec.md §get_balance):
"start at opening_balance; for every JournalItem on this account whose
parent Transaction is_posted (and transaction_date ≤ as_of_date if given),
add debit_amount, subtract credit_amount. If account.balance_type == CREDIT,
negate the accumulated result before returning."  Written from the spec's
words, to be compared with `get_balance` above. -/
def specBalance (s : State) (a : Account) (asOf : Option ℤ) : ℤ :=
  let balance := a.opening_balance +
    (((postedItems s a.accId asOf).map
        (fun it => it.debit_amount - it.credit_amount)).sum)
  if a.balance_type == BalanceType.CREDIT then -balance else balance

/-- The journal-item invariant enforced by `JournalItem.clean`
(transactions.py lines 306-312), the `MinValueValidator(0)` on both amount
fields, and `TransactionService._validate_journal_item`: amounts are
non-negative and at most one of debit / credit is set. -/
def ValidItem (it : JournalItem) : Prop :=
  0 ≤ it.debit_amount ∧ 0 ≤ it.credit_amount ∧
    (it.debit_amount = 0 ∨ it.credit_amount = 0)

instance : DecidablePred ValidItem := fun it => by
  unfold ValidItem; infer_instance

/-- An `UPDATE … WHERE pk = aid` on the accounts table (`account.save()`
after mutating fields of the row fetched for `aid`). -/
def modifyAccount (s : State) (aid : Nat) (f : Account → Account) : State :=
  { s with accounts := s.accounts.map (fun a => if a.accId == aid then f a else a) }

/-- `Account.update_balance` (accounts.py lines 236-261): recompute the
balance of the stored row from all posted journal items — the same loop as
`get_balance` with no `as_of_date`; the `Decimal(str(…))` round-trips are
identities on exact decimal values — negate for CREDIT-balance accounts, and
persist the result into `current_balance`. -/
def update_balance (s : State) (aid : Nat) : State :=
  modifyAccount s aid (fun a =>
    { a with current_balance :=
        let converted :=
          (postedItems s a.accId none).foldl balanceStep a.opening_balance
        if a.balance_type == BalanceType.CREDIT then -converted else converted })

/-- Concrete scenario for the `get_balance` witness: one DEBIT account with
opening balance 50, one posted transaction dated 5 holding a debit of 100 and
a credit of 30 on that account (on separate valid items). -/
def c1State : State :=
  { accounts := [{ accId := 1, balance_type := .DEBIT, opening_balance := 50,
                   current_balance := 0, is_active := true, allow_posting := true,
                   is_deleted := false }],
    transactions := [{ txId := 2, transaction_date := 5, amount := 100,
                       status := .POSTED, is_posted := true }],
    entries := [{ entryId := 3, txId := 2, amount := 100 }],
    items := [{ itemId := 4, entryId := 3, accId := 1, debit_amount := 100,
                credit_amount := 0 },
              { itemId := 5, entryId := 3, accId := 1, debit_amount := 0,
                credit_amount := 30 }],
    nextId := 6 }

/-- The account row of `c1State`. -/
def c1Account : Account :=
  { accId := 1, balance_type := .DEBIT, opening_balance := 50,
    current_balance := 0, is_active := true, allow_posting := true,
    is_deleted := false }

/-- Concrete scenario for the `update_balance` witness: a CREDIT account with
opening balance 10 and one posted credit of 40. -/
def c7State : State :=
  { accounts := [{ accId := 1, balance_type := .CREDIT, opening_balance := 10,
                   current_balance := 0, is_active := true, allow_posting := true,
                   is_deleted := false }],
    transactions := [{ txId := 2, transaction_date := 5, amount := 40,
                       status := .POSTED, is_posted := true }],
    entries := [{ entryId := 3, txId := 2, amount := 40 }],
    items := [{ itemId := 4, entryId := 3, accId := 1, debit_amount := 0,
                credit_amount := 40 }],
    nextId := 5 }

/-- The account row of `c7State` after `update_balance`: the raw fold is
`10 - 40 = -30`, negated to `30` for the CREDIT balance type. -/
def c7Updated : Account :=
  { accId := 1, balance_type := .CREDIT, opening_balance := 10,
    current_balance := 30, is_active := true, allow_posting := true,
    is_deleted := false }

/-! ## The transaction service (`accounting/services/transaction_service.py`) -/

/-- The individual messages collected into `errors` by
`TransactionService.validate_transaction`, `_validate_journal_item` and
`_validate_account_permissions`, and the messages of the `ValidationError`s
raised directly by `create_transaction` and `Transaction.clean`. -/
inductive VErr where
  | noEntries
  | unbalancedTxn
  | entryNoItems (eid : Nat)
  | entryUnbalanced (eid : Nat)
  | itemNoAmount (iid : Nat)
  | itemBothAmounts (iid : Nat)
  | itemAccountCannotPost (iid : Nat)
  | accountMissing (iid : Nat)
  | accountInactive (aid : Nat)
  | accountNoPosting (aid : Nat)
  | accountDeleted (aid : Nat)
  | futureDate
  | nonPositiveAmount
deriving DecidableEq, Repr

/-- The exceptions a service call can surface: a `ValidationError` carrying
validation messages, the state-conflict `ValidationError`s raised by
`post_transaction` / `void_transaction`, a missing row (`DoesNotExist`), and
the `AttributeError` raised inside `Transaction.reverse_transaction`. -/
inductive SvcErr where
  | validation (errs : List VErr)
  | alreadyPosted
  | notPosted
  | alreadyVoided
  | txnMissing
  | attrError
deriving DecidableEq, Repr

/-- All journal items of a transaction, entry by entry (the nested
`for entry in transaction.journal_entries.all(): for item in entry.items.all()`
loops). -/
def itemsOfTxn (s : State) (tid : Nat) : List JournalItem :=
  (entriesOf s tid).flatMap (fun e => itemsOf s e.entryId)

/-- `Transaction.get_total_debits` (transactions.py lines 225-231). -/
def get_total_debits (s : State) (tid : Nat) : ℤ :=
  ((itemsOfTxn s tid).map (fun it => it.debit_amount)).sum

/-- `Transaction.get_total_credits` (transactions.py lines 233-239). -/
def get_total_credits (s : State) (tid : Nat) : ℤ :=
  ((itemsOfTxn s tid).map (fun it => it.credit_amount)).sum

/-- `Transaction.is_balanced` (transactions.py lines 241-243). -/
def txn_is_balanced (s : State) (tid : Nat) : Bool :=
  get_total_debits s tid == get_total_credits s tid

/-- `JournalEntry.get_total_debits` (transactions.py lines 267-269). -/
def entry_total_debits (s : State) (eid : Nat) : ℤ :=
  ((itemsOf s eid).map (fun it => it.debit_amount)).sum

/-- `JournalEntry.get_total_credits` (transactions.py lines 271-273). -/
def entry_total_credits (s : State) (eid : Nat) : ℤ :=
  ((itemsOf s eid).map (fun it => it.credit_amount)).sum

/-- `JournalEntry.is_balanced` (transactions.py lines 275-277). -/
def entry_is_balanced (s : State) (eid : Nat) : Bool :=
  entry_total_debits s eid == entry_total_credits s eid

/-- `TransactionService._validate_journal_item` (transaction_service.py lines
175-196): neither-amount check, both-amounts check, then
`item.account.can_post_transactions()`. -/
def itemErrors (s : State) (it : JournalItem) : List VErr :=
  (if it.debit_amount = 0 ∧ it.credit_amount = 0
     then [VErr.itemNoAmount it.itemId] else [])
  ++ (if it.debit_amount > 0 ∧ it.credit_amount > 0
        then [VErr.itemBothAmounts it.itemId] else [])
  ++ (match getAccount s it.accId with
      | none => [VErr.accountMissing it.itemId]
      | some a =>
        if a.can_post_transactions then [] else [VErr.itemAccountCannotPost it.itemId])

/-- `TransactionService._validate_account_permissions` (transaction_service.py
lines 198-223): per item, `is_active`, `allow_posting` and `is_deleted`
checks on `item.account`. -/
def accountPermErrors (s : State) (tid : Nat) : List VErr :=
  (itemsOfTxn s tid).flatMap (fun it =>
    match getAccount s it.accId with
    | none => [VErr.accountMissing it.itemId]
    | some a =>
      (if a.is_active then [] else [VErr.accountInactive a.accId])
      ++ (if a.allow_posting then [] else [VErr.accountNoPosting a.accId])
      ++ (if a.is_deleted then [VErr.accountDeleted a.accId] else []))

/-- The per-entry checks of `validate_transaction` (transaction_service.py
lines 153-164): missing items, entry unbalanced, then the per-item checks. -/
def entryErrors (s : State) (e : JournalEntry) : List VErr :=
  (if (itemsOf s e.entryId).isEmpty then [VErr.entryNoItems e.entryId] else [])
  ++ (if entry_is_balanced s e.entryId then [] else [VErr.entryUnbalanced e.entryId])
  ++ ((itemsOf s e.entryId).flatMap (itemErrors s))

/-- The `errors` list accumulated by `TransactionService.validate_transaction`
(transaction_service.py lines 127-173), in source order: missing entries,
transaction unbalanced, then per entry missing items, entry unbalanced and
per-item checks, then account permissions. -/
def validateErrors (s : State) (tid : Nat) : List VErr :=
  (if (entriesOf s tid).isEmpty then [VErr.noEntries] else [])
  ++ (if txn_is_balanced s tid then [] else [VErr.unbalancedTxn])
  ++ ((entriesOf s tid).flatMap (entryErrors s))
  ++ accountPermErrors s tid

/-- `TransactionService.validate_transaction`: raises a `ValidationError`
joining the messages when any were collected, else returns `True`. -/
def validate_transaction (s : State) (tid : Nat) : Except SvcErr Bool :=
  if validateErrors s tid = [] then .ok true
  else .error (.validation (validateErrors s tid))

/-- An `UPDATE … WHERE pk = t.txId` on the transactions table. -/
def setTxn (s : State) (t : Txn) : State :=
  { s with transactions :=
      s.transactions.map (fun t0 => if t0.txId == t.txId then t else t0) }

/-- One iteration of `TransactionService._update_account_balances`
(transaction_service.py lines 282-302): re-fetch the item's account and add
`debit - credit` to `current_balance` when it is a debit-balance account,
`credit - debit` otherwise. -/
def applyItem (s : State) (it : JournalItem) : State :=
  modifyAccount s it.accId (fun a =>
    if a.is_debit_balance then
      { a with current_balance := a.current_balance + (it.debit_amount - it.credit_amount) }
    else
      { a with current_balance := a.current_balance + (it.credit_amount - it.debit_amount) })

/-- `TransactionService._update_account_balances`: the balance update applied
for every journal item of the transaction, in entry/item order. -/
def applyBalanceUpdates (s : State) (tid : Nat) : State :=
  (itemsOfTxn s tid).foldl applyItem s

/-- `TransactionService.post_transaction` (transaction_service.py lines
225-280): inside one atomic block, validate, reject when already posted,
set `status = POSTED` / `is_posted = True` and save, then update the account
balances.  (`posted_date` / `posted_by` stamping is not modelled; no claim
reads them.)  On `.error` nothing is committed. -/
def post_transaction (s : State) (tid : Nat) : Except SvcErr State :=
  match getTxn s tid with
  | none => .error .txnMissing
  | some t =>
    if validateErrors s tid = [] then
      if t.is_posted then .error .alreadyPosted
      else
        let s1 := setTxn s { t with status := .POSTED, is_posted := true }
        .ok (applyBalanceUpdates s1 tid)
    else .error (.validation (validateErrors s tid))

/-- The database state after a `post_transaction` call: the new state on
success, the unchanged input state when the atomic block rolled back. -/
def post_transaction_state (s : State) (tid : Nat) : State :=
  match post_transaction s tid with
  | .ok s' => s'
  | .error _ => s

/-- One item dict of `journal_entries_data[i]['items']` accepted by
`TransactionService.create_transaction`. -/
structure ItemInput where
  account_id : Nat
  debit_amount : ℤ
  credit_amount : ℤ
deriving DecidableEq, Repr

/-- One dict of `journal_entries_data` accepted by `create_transaction`. -/
structure EntryInput where
  amount : ℤ
  items : List ItemInput
deriving DecidableEq, Repr

/-- The `data` dict accepted by `create_transaction`, restricted to the
fields the embedding uses. -/
structure TxnInput where
  transaction_date : ℤ
  amount : ℤ
  journal_entries_data : List EntryInput
deriving DecidableEq, Repr

/-- `JournalItem.objects.bulk_create` of one entry's items
(transaction_service.py lines 86-99). -/
def addItems (s : State) (eid : Nat) (l : List ItemInput) : State :=
  l.foldl (fun st i =>
    let newItem : JournalItem :=
      { itemId := st.nextId, entryId := eid, accId := i.account_id,
        debit_amount := i.debit_amount, credit_amount := i.credit_amount }
    { st with items := st.items ++ [newItem], nextId := st.nextId + 1 }) s

/-- The `for entry_data in journal_entries_data` loop of `create_transaction`
(transaction_service.py lines 71-99): create the `JournalEntry` row, raise
when its item list is empty, else bulk-create its items. -/
def processEntries (s : State) (tid : Nat) : List EntryInput → Except SvcErr State
  | [] => .ok s
  | e :: rest =>
    let eid := s.nextId
    let newEntry : JournalEntry := { entryId := eid, txId := tid, amount := e.amount }
    let s1 := { s with entries := s.entries ++ [newEntry], nextId := s.nextId + 1 }
    if e.items.isEmpty then .error (.validation [VErr.entryNoItems eid])
    else processEntries (addItems s1 eid e.items) tid rest

/-- `TransactionService.create_transaction` (transaction_service.py lines
35-125): inside one atomic block, create the `Transaction` row via
`Transaction.objects.create` — which does NOT invoke `Transaction.clean` /
`full_clean`, so no future-date check happens on this path — raise when
`journal_entries_data` is empty, create the entries and items, then run
`validate_transaction` on the assembled transaction.  On `.error` the atomic
block rolls everything back. -/
def create_transaction (s : State) (today : ℤ) (input : TxnInput) :
    Except SvcErr (State × Nat) :=
  let tid := s.nextId
  let newTxn : Txn :=
    { txId := tid, transaction_date := input.transaction_date,
      amount := input.amount, status := .DRAFT, is_posted := false }
  let s1 := { s with transactions := s.transactions ++ [newTxn]
                     nextId := s.nextId + 1 }
  if input.journal_entries_data.isEmpty then .error (.validation [VErr.noEntries])
  else
    match processEntries s1 tid input.journal_entries_data with
    | .error e => .error e
    | .ok s2 =>
      if validateErrors s2 tid = [] then .ok (s2, tid)
      else .error (.validation (validateErrors s2 tid))

/-- The database state after a `create_transaction` call: the new state on
success, the unchanged input state when the atomic block rolled back. -/
def create_transaction_state (s : State) (today : ℤ) (input : TxnInput) : State :=
  match create_transaction s today input with
  | .ok (s', _) => s'
  | .error _ => s

/-- `Transaction.clean` (transactions.py lines 96-102): raise for a future
`transaction_date` or a non-positive `amount`.  (Invoked by `full_clean`; the
service create path never calls it.) -/
def transaction_clean (t : Txn) (today : ℤ) : Except SvcErr Unit :=
  if t.transaction_date > today then .error (.validation [VErr.futureDate])
  else if t.amount ≤ 0 then .error (.validation [VErr.nonPositiveAmount])
  else .ok ()

/-- `Transaction.reverse_transaction` (transactions.py lines 170-204): create
the reversal `Transaction` row (today's date, same type and amount, DRAFT),
then loop over the original's journal entries.  The loop body's first
statement is `entry.journalentry_set.create(...)` — but `JournalEntry` has no
attribute `journalentry_set` (the only foreign key into `JournalEntry`,
`JournalItem.journal_entry`, uses `related_name='items'`), so the first
iteration raises `AttributeError`; only a transaction with no entries
escapes the loop. -/
def reverse_transaction (s : State) (tid : Nat) (today : ℤ) :
    Except SvcErr (State × Nat) :=
  match getTxn s tid with
  | none => .error .txnMissing
  | some t =>
    let rid := s.nextId
    let reversal : Txn :=
      { txId := rid, transaction_date := today, amount := t.amount,
        status := .DRAFT, is_posted := false }
    let s1 := { s with transactions := s.transactions ++ [reversal]
                       nextId := s.nextId + 1 }
    match entriesOf s tid with
    | [] => .ok (s1, rid)
    | _ :: _ => .error .attrError

/-- `TransactionService.void_transaction` (transaction_service.py lines
316-366): inside one atomic block, reject when not posted or already voided,
create the reversal via `Transaction.reverse_transaction`, post it with the
full `post_transaction` path, then set the original's `status = VOIDED`.
Any exception rolls the whole block back. -/
def void_transaction (s : State) (tid : Nat) (today : ℤ) :
    Except SvcErr (State × Nat) :=
  match getTxn s tid with
  | none => .error .txnMissing
  | some t =>
    if !t.is_posted then .error .notPosted
    else if t.status == Status.VOIDED then .error .alreadyVoided
    else
      match reverse_transaction s tid today with
      | .error e => .error e
      | .ok (s1, rid) =>
        match post_transaction s1 rid with
        | .error e => .error e
        | .ok s2 =>
          match getTxn s2 tid with
          | none => .error .txnMissing
          | some t0 => .ok (setTxn s2 { t0 with status := .VOIDED }, rid)

/-- The database state after a `void_transaction` call. -/
def void_transaction_state (s : State) (tid : Nat) (today : ℤ) : State :=
  match void_transaction s tid today with
  | .ok (s', _) => s'
  | .error _ => s

/-! ## The report generator (`accounting/services/report_generator.py`) -/

/-- One row of `ReportGenerator._get_all_account_balances`
(report_generator.py lines 384-403): the account's `get_balance(as_of_date)`
split into a debit or credit column by the account's own balance type, with a
negative balance replaced by `0` (`balance if balance > 0 else Decimal('0')`). -/
structure TrialBalanceRow where
  accId : Nat
  debit_balance : ℤ
  credit_balance : ℤ
deriving DecidableEq, Repr

/-- The `report_data` of `ReportGenerator.generate_trial_balance`
(report_generator.py lines 148-185), restricted to the fields the claims
read. -/
structure TrialBalance where
  rows : List TrialBalanceRow
  total_debits : ℤ
  total_credits : ℤ
  difference : ℤ
deriving DecidableEq, Repr

/-- The per-account body of `_get_all_account_balances`. -/
def trial_balance_row (s : State) (asOf : ℤ) (a : Account) : TrialBalanceRow :=
  let balance := get_balance s a (some asOf)
  if a.is_debit_balance then
    { accId := a.accId
      debit_balance := if balance > 0 then balance else 0
      credit_balance := 0 }
  else
    { accId := a.accId
      debit_balance := 0
      credit_balance := if balance > 0 then balance else 0 }

/-- `ReportGenerator.generate_trial_balance`: one row per active account
(`Account.objects.filter(is_active=True)`; the `order_by('account_number')`
only fixes presentation order, which the totals do not depend on), summed
into `total_debits`, `total_credits` and their `difference`. -/
def generate_trial_balance (s : State) (asOf : ℤ) : TrialBalance :=
  let rows := (s.accounts.filter (fun a => a.is_active)).map (trial_balance_row s asOf)
  { rows := rows
    total_debits := (rows.map (fun r => r.debit_balance)).sum
    total_credits := (rows.map (fun r => r.credit_balance)).sum
    difference := (rows.map (fun r => r.debit_balance)).sum -
      (rows.map (fun r => r.credit_balance)).sum }

/-- The filter of the `JournalItem` query of
`ReportGenerator.generate_general_ledger` (report_generator.py lines
208-213): items of the account whose posted parent transaction is dated
within `[startD, endD]`. -/
def inWindow (s : State) (aid : Nat) (startD endD : ℤ) (it : JournalItem) : Bool :=
  it.accId == aid &&
  (match txnOfItem s it with
   | none => false
   | some t =>
     t.is_posted && decide (startD ≤ t.transaction_date) &&
       decide (t.transaction_date ≤ endD))

/-- The ledger queryset.  The query orders by
`(transaction__transaction_date, created_at)`; the stored list order of
`State.items` stands in for creation order, and theorems that depend on
chronology hypothesise date-sortedness of this list explicitly. -/
def windowItems (s : State) (aid : Nat) (startD endD : ℤ) : List JournalItem :=
  s.items.filter (inWindow s aid startD endD)

/-- The running-balance loop of `generate_general_ledger` (report_generator.py
lines 216-232): the same raw `if debit > 0 then add debit else subtract
credit` step as `get_balance`, with NO re-negation for CREDIT-balance
accounts, each item annotated with the balance after it. -/
def runningList (b : ℤ) : List JournalItem → List (JournalItem × ℤ)
  | [] => []
  | it :: rest => (it, balanceStep b it) :: runningList (balanceStep b it) rest

/-- The `report_data` of `generate_general_ledger`, restricted to the fields
the claims read. -/
structure GeneralLedger where
  opening_balance : ℤ
  closing_balance : ℤ
  entries : List (JournalItem × ℤ)
deriving DecidableEq, Repr

/-- `ReportGenerator.generate_general_ledger` (report_generator.py lines
187-253): opening balance as of `startD - 1`, the windowed items annotated
with running balances started from that opening balance, and the closing
balance as of `endD`. -/
def generate_general_ledger (s : State) (a : Account) (startD endD : ℤ) :
    GeneralLedger :=
  { opening_balance := get_balance s a (some (startD - 1))
    closing_balance := get_balance s a (some endD)
    entries := runningList (get_balance s a (some (startD - 1)))
      (windowItems s a.accId startD endD) }

/-! ## Derived quantities and well-formedness -/

/-- The signed effect of one journal item on one account's cached balance,
as applied by `_update_account_balances`: `debit - credit` for a
debit-balance account, `credit - debit` otherwise. -/
def itemDelta (a : Account) (it : JournalItem) : ℤ :=
  if a.is_debit_balance then it.debit_amount - it.credit_amount
  else it.credit_amount - it.debit_amount

/-- Primary keys already stored are below the allocation counter — true of
every state the service builds, since `nextId` only grows. -/
def WfIds (s : State) : Prop :=
  (∀ e ∈ s.entries, e.txId < s.nextId ∧ e.entryId < s.nextId) ∧
  (∀ it ∈ s.items, it.entryId < s.nextId)

instance : DecidablePred WfIds := fun s => by
  unfold WfIds; infer_instance

/-- All item dicts of a `create_transaction` input. -/
def inputItems (input : TxnInput) : List ItemInput :=
  input.journal_entries_data.flatMap (fun e => e.items)

/-- Total debit amount of a `create_transaction` input. -/
def inputDebits (input : TxnInput) : ℤ :=
  ((inputItems input).map (fun i => i.debit_amount)).sum

/-- Total credit amount of a `create_transaction` input. -/
def inputCredits (input : TxnInput) : ℤ :=
  ((inputItems input).map (fun i => i.credit_amount)).sum

/-- The (debit, credit) pairs of a transaction's stored items. -/
def itemVals (s : State) (tid : Nat) : List (ℤ × ℤ) :=
  (itemsOfTxn s tid).map (fun it => (it.debit_amount, it.credit_amount))

/-- The (debit, credit) pairs of a list of entry inputs. -/
def entryInputVals (l : List EntryInput) : List (ℤ × ℤ) :=
  (l.flatMap (fun e => e.items)).map (fun i => (i.debit_amount, i.credit_amount))

/-! ## Concrete scenarios used by the per-claim witnesses and evaluations -/

/-- C3 scenario: an unbalanced stored transaction — a 500 debit to account 1
against only a 400 credit to account 2. -/
def c3State : State :=
  { accounts := [{ accId := 1, balance_type := .DEBIT, opening_balance := 0,
                   current_balance := 0, is_active := true, allow_posting := true,
                   is_deleted := false },
                 { accId := 2, balance_type := .DEBIT, opening_balance := 0,
                   current_balance := 0, is_active := true, allow_posting := true,
                   is_deleted := false }],
    transactions := [{ txId := 3, transaction_date := 5, amount := 500,
                       status := .DRAFT, is_posted := false }],
    entries := [{ entryId := 4, txId := 3, amount := 500 }],
    items := [{ itemId := 5, entryId := 4, accId := 1, debit_amount := 500,
                credit_amount := 0 },
              { itemId := 6, entryId := 4, accId := 2, debit_amount := 0,
                credit_amount := 400 }],
    nextId := 7 }

/-- C4 scenario: a balanced, postable DRAFT transaction (debit 100 to the
debit-balance account 1, credit 100 to the credit-balance account 2). -/
def c4State : State :=
  { accounts := [{ accId := 1, balance_type := .DEBIT, opening_balance := 0,
                   current_balance := 0, is_active := true, allow_posting := true,
                   is_deleted := false },
                 { accId := 2, balance_type := .CREDIT, opening_balance := 0,
                   current_balance := 0, is_active := true, allow_posting := true,
                   is_deleted := false }],
    transactions := [{ txId := 3, transaction_date := 5, amount := 100,
                       status := .DRAFT, is_posted := false }],
    entries := [{ entryId := 4, txId := 3, amount := 100 }],
    items := [{ itemId := 5, entryId := 4, accId := 1, debit_amount := 100,
                credit_amount := 0 },
              { itemId := 6, entryId := 4, accId := 2, debit_amount := 0,
                credit_amount := 100 }],
    nextId := 7 }

/-- The C4 scenario after its first successful post. -/
def c4Posted : State := post_transaction_state c4State 3

/-- C10 scenario: same shape as the C4 scenario. -/
def c10State : State :=
  { accounts := [{ accId := 1, balance_type := .DEBIT, opening_balance := 0,
                   current_balance := 0, is_active := true, allow_posting := true,
                   is_deleted := false },
                 { accId := 2, balance_type := .CREDIT, opening_balance := 0,
                   current_balance := 0, is_active := true, allow_posting := true,
                   is_deleted := false },
                 { accId := 9, balance_type := .DEBIT, opening_balance := 7,
                   current_balance := 7, is_active := true, allow_posting := true,
                   is_deleted := false }],
    transactions := [{ txId := 3, transaction_date := 5, amount := 100,
                       status := .DRAFT, is_posted := false }],
    entries := [{ entryId := 4, txId := 3, amount := 100 }],
    items := [{ itemId := 5, entryId := 4, accId := 1, debit_amount := 100,
                credit_amount := 0 },
              { itemId := 6, entryId := 4, accId := 2, debit_amount := 0,
                credit_amount := 100 }],
    nextId := 7 }

/-- The C10 scenario after posting. -/
def c10Posted : State := post_transaction_state c10State 3

/-- Account 1 of the C10 scenario. -/
def c10Cash : Account :=
  { accId := 1, balance_type := .DEBIT, opening_balance := 0,
    current_balance := 0, is_active := true, allow_posting := true,
    is_deleted := false }

/-- C5 scenario: an empty ledger with two postable accounts. -/
def c5State : State :=
  { accounts := [{ accId := 1, balance_type := .DEBIT, opening_balance := 0,
                   current_balance := 0, is_active := true, allow_posting := true,
                   is_deleted := false },
                 { accId := 2, balance_type := .DEBIT, opening_balance := 0,
                   current_balance := 0, is_active := true, allow_posting := true,
                   is_deleted := false }],
    transactions := [], entries := [], items := [], nextId := 3 }

/-- C5 input: one entry debiting 500.00 to account 1 and crediting only
400.00 to account 2 — unbalanced. -/
def c5Input : TxnInput :=
  { transaction_date := 5, amount := 500,
    journal_entries_data :=
      [{ amount := 500,
         items := [{ account_id := 1, debit_amount := 500, credit_amount := 0 },
                   { account_id := 2, debit_amount := 0, credit_amount := 400 }] }] }

/-- C2 scenario: a balanced, postable DRAFT transaction, as in the repo's own
`test_void_transaction_success` (debit 100 to cash, credit 100 to revenue). -/
def c2State : State :=
  { accounts := [{ accId := 1, balance_type := .DEBIT, opening_balance := 0,
                   current_balance := 0, is_active := true, allow_posting := true,
                   is_deleted := false },
                 { accId := 2, balance_type := .CREDIT, opening_balance := 0,
                   current_balance := 0, is_active := true, allow_posting := true,
                   is_deleted := false }],
    transactions := [{ txId := 3, transaction_date := 5, amount := 100,
                       status := .DRAFT, is_posted := false }],
    entries := [{ entryId := 4, txId := 3, amount := 100 }],
    items := [{ itemId := 5, entryId := 4, accId := 1, debit_amount := 100,
                credit_amount := 0 },
              { itemId := 6, entryId := 4, accId := 2, debit_amount := 0,
                credit_amount := 100 }],
    nextId := 7 }

/-- The C2 scenario after posting. -/
def c2Posted : State := post_transaction_state c2State 3

/-- C6 scenario: an empty ledger with two active ASSET (debit-balance)
accounts. -/
def c6Base : State :=
  { accounts := [{ accId := 1, balance_type := .DEBIT, opening_balance := 0,
                   current_balance := 0, is_active := true, allow_posting := true,
                   is_deleted := false },
                 { accId := 2, balance_type := .DEBIT, opening_balance := 0,
                   current_balance := 0, is_active := true, allow_posting := true,
                   is_deleted := false }],
    transactions := [], entries := [], items := [], nextId := 3 }

/-- C6 input: a balanced transaction moving 100 from asset account 1 to asset
account 2 (debit 100 to account 2, credit 100 to account 1). -/
def c6Input : TxnInput :=
  { transaction_date := 5, amount := 100,
    journal_entries_data :=
      [{ amount := 100,
         items := [{ account_id := 2, debit_amount := 100, credit_amount := 0 },
                   { account_id := 1, debit_amount := 0, credit_amount := 100 }] }] }

/-- The C6 scenario after `create_transaction`. -/
def c6Created : State := create_transaction_state c6Base 10 c6Input

/-- The C6 scenario after `create_transaction` then `post_transaction` — a
state reached purely through the service operations. -/
def c6PostedState : State := post_transaction_state c6Created 3

/-- C8 scenario: a CREDIT-balance (liability) account 1 with a posted credit
of 100 dated 10, balanced by a debit to the asset account 2. -/
def c8State : State :=
  { accounts := [{ accId := 1, balance_type := .CREDIT, opening_balance := 0,
                   current_balance := 100, is_active := true, allow_posting := true,
                   is_deleted := false },
                 { accId := 2, balance_type := .DEBIT, opening_balance := 0,
                   current_balance := 100, is_active := true, allow_posting := true,
                   is_deleted := false }],
    transactions := [{ txId := 3, transaction_date := 10, amount := 100,
                       status := .POSTED, is_posted := true }],
    entries := [{ entryId := 4, txId := 3, amount := 100 }],
    items := [{ itemId := 5, entryId := 4, accId := 2, debit_amount := 100,
                credit_amount := 0 },
              { itemId := 6, entryId := 4, accId := 1, debit_amount := 0,
                credit_amount := 100 }],
    nextId := 7 }

/-- The liability account of the C8 scenario. -/
def c8Liab : Account :=
  { accId := 1, balance_type := .CREDIT, opening_balance := 0,
    current_balance := 100, is_active := true, allow_posting := true,
    is_deleted := false }

/-- The credit item of the C8 scenario. -/
def c8Item : JournalItem :=
  { itemId := 6, entryId := 4, accId := 1, debit_amount := 0,
    credit_amount := 100 }

/-- C9 scenario: an empty ledger with two postable accounts; "today" is
day 10. -/
def c9State : State :=
  { accounts := [{ accId := 1, balance_type := .DEBIT, opening_balance := 0,
                   current_balance := 0, is_active := true, allow_posting := true,
                   is_deleted := false },
                 { accId := 2, balance_type := .DEBIT, opening_balance := 0,
                   current_balance := 0, is_active := true, allow_posting := true,
                   is_deleted := false }],
    transactions := [], entries := [], items := [], nextId := 3 }

/-- C9 input: a balanced transaction dated day 11 — strictly after
"today" (day 10). -/
def c9Input : TxnInput :=
  { transaction_date := 11, amount := 100,
    journal_entries_data :=
      [{ amount := 100,
         items := [{ account_id := 1, debit_amount := 100, credit_amount := 0 },
                   { account_id := 2, debit_amount := 0, credit_amount := 100 }] }] }

/-- The C9 scenario after `create_transaction` on the future-dated input. -/
def c9Created : State := create_transaction_state c9State 10 c9Input

/-! ## Lemmas and claim theorems -/

lemma balanceStep_eq_of_valid {it : JournalItem} (h : ValidItem it) (b : ℤ) :
    balanceStep b it = b + (it.debit_amount - it.credit_amount) := by
  obtain ⟨hd, hc, hdc⟩ := h
  unfold balanceStep
  by_cases hpos : it.debit_amount > 0
  · have hc0 : it.credit_amount = 0 := hdc.resolve_left (ne_of_gt hpos)
    rw [if_pos hpos, hc0]; ring
  · have hd0 : it.debit_amount = 0 := le_antisymm (not_lt.mp hpos) hd
    rw [if_neg hpos, hd0]; ring

lemma foldl_balanceStep_eq {l : List JournalItem}
    (h : ∀ it ∈ l, ValidItem it) (b : ℤ) :
    l.foldl balanceStep b =
      b + ((l.map (fun it => it.debit_amount - it.credit_amount)).sum) := by
  induction l generalizing b with
  | nil => simp
  | cons it rest ih =>
    have hit : ValidItem it := h it (List.mem_cons_self it rest)
    have hrest : ∀ x ∈ rest, ValidItem x := fun x hx => h x (List.mem_cons_of_mem it hx)
    simp only [List.foldl_cons, List.map_cons, List.sum_cons]
    rw [balanceStep_eq_of_valid hit, ih hrest]
    ring

lemma find?_map_of_pred_inv {α : Type} (g : α → α) (p : α → Bool)
    (hg : ∀ a, p (g a) = p a) (l : List α) :
    (l.map g).find? p = (l.find? p).map g := by
  induction l with
  | nil => rfl
  | cons a t ih =>
    cases hpa : p a with
    | true =>
      rw [List.map_cons, List.find?_cons_of_pos _ (by rw [hg a]; exact hpa),
        List.find?_cons_of_pos _ hpa, Option.map_some']
    | false =>
      rw [List.map_cons, List.find?_cons_of_neg _ (by rw [hg a]; simp [hpa]),
        List.find?_cons_of_neg _ (by simp [hpa]), ih]

lemma getAccount_modifyAccount (s : State) (aid aid' : Nat) (f : Account → Account)
    (hf : ∀ a, (f a).accId = a.accId) :
    getAccount (modifyAccount s aid f) aid' =
      (getAccount s aid').map (fun a => if a.accId == aid then f a else a) := by
  unfold getAccount modifyAccount
  exact find?_map_of_pred_inv _ _
    (fun a => by by_cases h : a.accId == aid <;> simp [h, hf]) _

/-- **C1.** `Account.get_balance(as_of_date)` computes exactly the spec's
formula: `opening_balance` plus, over every `JournalItem` of the account whose
parent `Transaction` is posted (and dated `≤ as_of_date` when given),
`debit_amount` added and `credit_amount` subtracted, the accumulated result
negated for a CREDIT-balance account.  The hypothesis is the journal-item
invariant (non-negative amounts, at most one side set) enforced by
`JournalItem.clean` and by `TransactionService` validation on every persisted
item.  The embedded function is pure, so the call has no side effects and two
calls with the same inputs return the same value. -/
theorem get_balance_matches_spec (s : State) (a : Account) (asOf : Option ℤ)
    (hvalid : ∀ it ∈ s.items, ValidItem it) :
    get_balance s a asOf = specBalance s a asOf := by
  have h : ∀ it ∈ postedItems s a.accId asOf, ValidItem it := fun it hit =>
    hvalid it (List.mem_of_mem_filter hit)
  unfold get_balance specBalance
  rw [foldl_balanceStep_eq h]

/-- Witness for C1 at the concrete scenario `c1State`. -/
theorem get_balance_matches_spec_witness :
    (∀ it ∈ c1State.items, ValidItem it) ∧
      get_balance c1State c1Account (some 10) = specBalance c1State c1Account (some 10) :=
  ⟨by decide, get_balance_matches_spec c1State c1Account (some 10) (by decide)⟩

/-- `postedItems` reads only the `items`, `entries` and `transactions` tables,
so it is unchanged by an update of the accounts table. -/
lemma postedItems_modifyAccount (s : State) (aid : Nat) (f : Account → Account)
    (aid' : Nat) (asOf : Option ℤ) :
    postedItems (modifyAccount s aid f) aid' asOf = postedItems s aid' asOf := rfl

/-- `get_balance` reads only the account's `accId`, `opening_balance` and
`balance_type` together with the journal tables, never `current_balance`. -/
lemma get_balance_modifyAccount (s : State) (aid : Nat) (f : Account → Account)
    (a : Account) (asOf : Option ℤ) :
    get_balance (modifyAccount s aid f) a asOf = get_balance s a asOf := rfl

/-- **C7.** Immediately after `update_balance`, the persisted
`current_balance` of the refreshed account equals `get_balance` with no
`as_of_date` recomputed on the resulting state: the cached balance is exactly
the full fold over posted journal items. -/
theorem update_balance_refreshes_cache (s : State) (aid : Nat) (a' : Account)
    (h : getAccount (update_balance s aid) aid = some a') :
    a'.current_balance = get_balance (update_balance s aid) a' none := by
  unfold update_balance at h ⊢
  rw [getAccount_modifyAccount s aid aid _ (by intro a; rfl)] at h
  cases hga : getAccount s aid with
  | none => rw [hga] at h; cases h
  | some a =>
    rw [hga, Option.map_some'] at h
    have haid : a.accId == aid := by
      have := List.find?_some hga
      exact this
    rw [if_pos haid] at h
    cases h
    rw [get_balance_modifyAccount]
    rfl

/-- Witness for C7 at the concrete scenario `c7State`. -/
theorem update_balance_refreshes_cache_witness :
    getAccount (update_balance c7State 1) 1 = some c7Updated ∧
      c7Updated.current_balance = get_balance (update_balance c7State 1) c7Updated none :=
  ⟨by rfl, update_balance_refreshes_cache c7State 1 c7Updated (by rfl)⟩

lemma find?_beq_eq {α : Type} (key : α → Nat) {l : List α} {k : Nat} {x : α}
    (h : l.find? (fun y => key y == k) = some x) : key x = k := by
  induction l with
  | nil => simp [List.find?] at h
  | cons b t ih =>
    cases hb : (key b == k) with
    | true =>
      simp only [List.find?, hb] at h
      cases h
      simpa using hb
    | false =>
      simp only [List.find?, hb] at h
      exact ih h

lemma flatMap_congr {α β : Type} {l : List α} {f g : α → List β}
    (h : ∀ a ∈ l, f a = g a) : l.flatMap f = l.flatMap g := by
  induction l with
  | nil => rfl
  | cons a t ih =>
    simp only [List.flatMap_cons]
    rw [h a (List.mem_cons_self a t), ih (fun x hx => h x (List.mem_cons_of_mem a hx))]

lemma applyItem_as_modify (s : State) (it : JournalItem) :
    applyItem s it = modifyAccount s it.accId
      (fun a => { a with current_balance := a.current_balance + itemDelta a it }) := by
  unfold applyItem modifyAccount itemDelta
  congr 1
  apply List.map_congr_left
  intro a _
  by_cases h : a.accId == it.accId
  · rw [if_pos h, if_pos h]
    by_cases hdb : a.is_debit_balance
    · simp [hdb]
    · simp [hdb]
  · rw [if_neg h, if_neg h]

lemma foldl_applyItem_transactions (l : List JournalItem) (s : State) :
    (l.foldl applyItem s).transactions = s.transactions := by
  induction l generalizing s with
  | nil => rfl
  | cons it rest ih => rw [List.foldl_cons, ih]; rfl

lemma foldl_applyItem_entries (l : List JournalItem) (s : State) :
    (l.foldl applyItem s).entries = s.entries := by
  induction l generalizing s with
  | nil => rfl
  | cons it rest ih => rw [List.foldl_cons, ih]; rfl

lemma foldl_applyItem_items (l : List JournalItem) (s : State) :
    (l.foldl applyItem s).items = s.items := by
  induction l generalizing s with
  | nil => rfl
  | cons it rest ih => rw [List.foldl_cons, ih]; rfl

lemma itemDelta_update_balance (a : Account) (x : ℤ) :
    itemDelta { a with current_balance := x } = itemDelta a := rfl

/-- Folding the per-item balance updates over a list of items changes each
account's `current_balance` by the sum of `itemDelta` over the items that
reference it, and nothing else. -/
lemma foldl_applyItem_getAccount (l : List JournalItem) (s0 : State) (aid : Nat) :
    getAccount (l.foldl applyItem s0) aid =
      (getAccount s0 aid).map (fun a =>
        { a with current_balance := a.current_balance +
            ((l.filter (fun it => it.accId == aid)).map (itemDelta a)).sum }) := by
  induction l generalizing s0 with
  | nil =>
    rw [List.foldl_nil]
    cases hga : getAccount s0 aid with
    | none => rfl
    | some a => simp
  | cons it rest ih =>
    rw [List.foldl_cons, applyItem_as_modify, ih,
      getAccount_modifyAccount _ _ _ _ (by intro a; rfl)]
    cases hga : getAccount s0 aid with
    | none => rfl
    | some a =>
      have hga' : s0.accounts.find? (fun x => x.accId == aid) = some a := hga
      have ha : a.accId = aid := find?_beq_eq Account.accId hga'
      simp only [Option.map_some']
      cases hit : (it.accId == aid) with
      | true =>
        have hi : it.accId = aid := by simpa using hit
        rw [if_pos (show (a.accId == it.accId) = true by simp [ha, hi])]
        have hfil : (it :: rest).filter (fun x => x.accId == aid) =
            it :: rest.filter (fun x => x.accId == aid) := by
          simp [List.filter_cons, hit]
        rw [hfil, List.map_cons, List.sum_cons]
        simp [add_assoc]
        rfl
      | false =>
        have hi : it.accId ≠ aid := by simpa using hit
        have hne : ¬ ((a.accId == it.accId) = true) := by
          simp only [ha, beq_iff_eq]
          exact fun hc => hi hc.symm
        rw [if_neg hne]
        simp [List.filter_cons, hit]

lemma itemErrors_modifyAccount (s : State) (aid : Nat) (f : Account → Account)
    (hf : ∀ a, (f a).accId = a.accId ∧ (f a).is_active = a.is_active ∧
      (f a).allow_posting = a.allow_posting ∧ (f a).is_deleted = a.is_deleted)
    (it : JournalItem) :
    itemErrors (modifyAccount s aid f) it = itemErrors s it := by
  unfold itemErrors
  rw [getAccount_modifyAccount _ _ _ _ (fun a => (hf a).1)]
  cases hga : getAccount s it.accId with
  | none => rfl
  | some a =>
    simp only [Option.map_some']
    by_cases hc : (a.accId == aid)
    · rw [if_pos hc]
      have hcp : (f a).can_post_transactions = a.can_post_transactions := by
        unfold Account.can_post_transactions
        rw [(hf a).2.1, (hf a).2.2.1, (hf a).2.2.2]
      rw [hcp]
    · rw [if_neg hc]

lemma accountPermErrors_modifyAccount (s : State) (aid : Nat) (f : Account → Account)
    (hf : ∀ a, (f a).accId = a.accId ∧ (f a).is_active = a.is_active ∧
      (f a).allow_posting = a.allow_posting ∧ (f a).is_deleted = a.is_deleted)
    (tid : Nat) :
    accountPermErrors (modifyAccount s aid f) tid = accountPermErrors s tid := by
  unfold accountPermErrors
  have hitems : itemsOfTxn (modifyAccount s aid f) tid = itemsOfTxn s tid := rfl
  rw [hitems]
  apply flatMap_congr
  intro it _
  rw [getAccount_modifyAccount _ _ _ _ (fun a => (hf a).1)]
  cases hga : getAccount s it.accId with
  | none => rfl
  | some a =>
    simp only [Option.map_some']
    by_cases hc : (a.accId == aid)
    · rw [if_pos hc, (hf a).1, (hf a).2.1, (hf a).2.2.1, (hf a).2.2.2]
    · rw [if_neg hc]

lemma entryErrors_modifyAccount (s : State) (aid : Nat) (f : Account → Account)
    (hf : ∀ a, (f a).accId = a.accId ∧ (f a).is_active = a.is_active ∧
      (f a).allow_posting = a.allow_posting ∧ (f a).is_deleted = a.is_deleted)
    (e : JournalEntry) :
    entryErrors (modifyAccount s aid f) e = entryErrors s e := by
  have h3 : (itemsOf (modifyAccount s aid f) e.entryId).flatMap
      (itemErrors (modifyAccount s aid f)) =
      (itemsOf (modifyAccount s aid f) e.entryId).flatMap (itemErrors s) :=
    flatMap_congr (fun it _ => itemErrors_modifyAccount s aid f hf it)
  unfold entryErrors
  rw [h3]
  rfl

/-- `validate_transaction` never reads `current_balance`: any accounts-table
update that preserves ids and the three permission flags leaves the
validation outcome unchanged. -/
lemma validateErrors_modifyAccount (s : State) (aid : Nat) (f : Account → Account)
    (hf : ∀ a, (f a).accId = a.accId ∧ (f a).is_active = a.is_active ∧
      (f a).allow_posting = a.allow_posting ∧ (f a).is_deleted = a.is_deleted)
    (tid : Nat) :
    validateErrors (modifyAccount s aid f) tid = validateErrors s tid := by
  have hmain : (entriesOf (modifyAccount s aid f) tid).flatMap
      (entryErrors (modifyAccount s aid f)) =
      (entriesOf (modifyAccount s aid f) tid).flatMap (entryErrors s) :=
    flatMap_congr (fun e _ => entryErrors_modifyAccount s aid f hf e)
  unfold validateErrors
  rw [hmain, accountPermErrors_modifyAccount s aid f hf tid]
  rfl

lemma validateErrors_foldl_applyItem (l : List JournalItem) (s : State) (tid : Nat) :
    validateErrors (l.foldl applyItem s) tid = validateErrors s tid := by
  induction l generalizing s with
  | nil => rfl
  | cons it rest ih =>
    rw [List.foldl_cons, ih, applyItem_as_modify,
      validateErrors_modifyAccount _ _ _ (by intro a; exact ⟨rfl, rfl, rfl, rfl⟩) tid]

lemma getTxn_foldl_applyItem (l : List JournalItem) (s : State) (tid : Nat) :
    getTxn (l.foldl applyItem s) tid = getTxn s tid := by
  unfold getTxn
  rw [foldl_applyItem_transactions]

lemma getTxn_setTxn (s : State) (t : Txn) (tid : Nat) :
    getTxn (setTxn s t) tid =
      (getTxn s tid).map (fun t0 => if t0.txId == t.txId then t else t0) := by
  unfold getTxn setTxn
  apply find?_map_of_pred_inv
  intro t0
  by_cases h : t0.txId == t.txId
  · rw [if_pos h]
    have ht : t0.txId = t.txId := by simpa using h
    rw [ht]
  · rw [if_neg h]

lemma validateErrors_setTxn (s : State) (t : Txn) (tid : Nat) :
    validateErrors (setTxn s t) tid = validateErrors s tid := rfl

lemma itemsOfTxn_setTxn (s : State) (t : Txn) (tid : Nat) :
    itemsOfTxn (setTxn s t) tid = itemsOfTxn s tid := rfl

lemma getAccount_setTxn (s : State) (t : Txn) (aid : Nat) :
    getAccount (setTxn s t) aid = getAccount s aid := rfl

/-- **C3.** A transaction whose item debit total differs from its credit
total by any nonzero amount never reaches POSTED: `validate_transaction`
raises a `ValidationError` whose message list contains the unbalanced error,
`post_transaction` raises, and the database state — in particular the
transaction's `status` and `is_posted` — is left unchanged by the rolled-back
call. -/
theorem unbalanced_transaction_never_posts (s : State) (tid : Nat)
    (h : get_total_debits s tid ≠ get_total_credits s tid) :
    (validate_transaction s tid = .error (.validation (validateErrors s tid)) ∧
       VErr.unbalancedTxn ∈ validateErrors s tid) ∧
    (∃ e, post_transaction s tid = .error e) ∧
    post_transaction_state s tid = s := by
  have hb : txn_is_balanced s tid = false := by
    unfold txn_is_balanced
    simp [h]
  have hmem : VErr.unbalancedTxn ∈ validateErrors s tid := by
    unfold validateErrors
    simp [hb]
  have hne : validateErrors s tid ≠ [] := List.ne_nil_of_mem hmem
  have hpost : ∃ e, post_transaction s tid = .error e := by
    unfold post_transaction
    cases hgt : getTxn s tid with
    | none => exact ⟨.txnMissing, rfl⟩
    | some t =>
      dsimp only
      rw [if_neg hne]
      exact ⟨.validation (validateErrors s tid), rfl⟩
  refine ⟨⟨?_, hmem⟩, hpost, ?_⟩
  · unfold validate_transaction
    rw [if_neg hne]
  · obtain ⟨e, he⟩ := hpost
    unfold post_transaction_state
    rw [he]

/-- Witness for C3 at the concrete unbalanced scenario `c3State`
(debits 500 ≠ credits 400 on transaction 3). -/
theorem unbalanced_transaction_never_posts_witness :
    get_total_debits c3State 3 ≠ get_total_credits c3State 3 ∧
      ((∃ e, post_transaction c3State 3 = .error e) ∧
        post_transaction_state c3State 3 = c3State) :=
  ⟨by decide, (unbalanced_transaction_never_posts c3State 3 (by decide)).2⟩

/-- **C4.** Once `post_transaction` has succeeded on a transaction, a second
`post_transaction` call on it fails with the "already posted" state-conflict
`ValidationError` and — the atomic block rolling back an error before any
mutation — leaves the database, hence every account's `current_balance` and
every field of the transaction, unchanged: balances are never applied
twice. -/
theorem post_transaction_already_posted_guard (s s' : State) (tid : Nat)
    (h : post_transaction s tid = .ok s') :
    post_transaction s' tid = .error .alreadyPosted ∧
    post_transaction_state s' tid = s' := by
  unfold post_transaction at h
  cases hgt : getTxn s tid with
  | none => rw [hgt] at h; cases h
  | some t =>
    rw [hgt] at h
    dsimp only at h
    by_cases hv : validateErrors s tid = []
    · rw [if_pos hv] at h
      cases hp : t.is_posted with
      | true => rw [hp] at h; simp at h
      | false =>
        rw [hp] at h
        simp only [Bool.false_eq_true, if_false] at h
        have hs' : s' = applyBalanceUpdates
            (setTxn s { t with status := .POSTED, is_posted := true }) tid := by
          cases h; rfl
        have htid : t.txId = tid :=
          find?_beq_eq Txn.txId (show s.transactions.find? (fun y => y.txId == tid) = some t from hgt)
        have hgt' : getTxn s' tid = some { t with status := .POSTED, is_posted := true } := by
          rw [hs']
          unfold applyBalanceUpdates
          rw [getTxn_foldl_applyItem, getTxn_setTxn, hgt, Option.map_some']
          have : (t.txId == ({ t with status := Status.POSTED, is_posted := true } : Txn).txId) = true := by
            simp
          rw [if_pos this]
        have hv' : validateErrors s' tid = [] := by
          rw [hs']
          unfold applyBalanceUpdates
          rw [validateErrors_foldl_applyItem, validateErrors_setTxn]
          exact hv
        have hfail : post_transaction s' tid = .error .alreadyPosted := by
          unfold post_transaction
          rw [hgt']
          dsimp only
          rw [if_pos hv']
          rfl
        refine ⟨hfail, ?_⟩
        unfold post_transaction_state
        rw [hfail]
    · rw [if_neg hv] at h
      cases h

/-- Witness for C4 at the concrete scenario `c4State`: posting succeeds once,
then fails with the already-posted conflict and changes nothing. -/
theorem post_transaction_already_posted_guard_witness :
    post_transaction c4State 3 = .ok c4Posted ∧
      post_transaction c4Posted 3 = .error .alreadyPosted ∧
      post_transaction_state c4Posted 3 = c4Posted :=
  ⟨by rfl, (post_transaction_already_posted_guard c4State c4Posted 3 (by rfl)).1,
    (post_transaction_already_posted_guard c4State c4Posted 3 (by rfl)).2⟩

/-- **C10.** A successful `post_transaction` changes `current_balance` only
for accounts referenced by the transaction's journal items: an account
referenced by no item keeps its entire row unchanged, and a stored account
row changes exactly by adding, for a DEBIT-balance account, the sum of
`debit - credit` over the transaction's items on it, and for a CREDIT-balance
account the sum of `credit - debit` — all other fields unchanged. -/
theorem post_transaction_balance_frame (s s' : State) (tid : Nat)
    (h : post_transaction s tid = .ok s') :
    (∀ aid, (itemsOfTxn s tid).filter (fun it => it.accId == aid) = [] →
        getAccount s' aid = getAccount s aid) ∧
    (∀ aid a, getAccount s aid = some a →
        getAccount s' aid = some { a with current_balance := a.current_balance +
          (if a.is_debit_balance then
              (((itemsOfTxn s tid).filter (fun it => it.accId == aid)).map
                 (fun it => it.debit_amount - it.credit_amount)).sum
            else
              (((itemsOfTxn s tid).filter (fun it => it.accId == aid)).map
                 (fun it => it.credit_amount - it.debit_amount)).sum) }) := by
  have hmaster : ∀ aid, getAccount s' aid =
      (getAccount s aid).map (fun a =>
        { a with current_balance := a.current_balance +
            (((itemsOfTxn s tid).filter (fun it => it.accId == aid)).map
               (itemDelta a)).sum }) := by
    intro aid
    unfold post_transaction at h
    cases hgt : getTxn s tid with
    | none => rw [hgt] at h; cases h
    | some t =>
      rw [hgt] at h
      dsimp only at h
      by_cases hv : validateErrors s tid = []
      · rw [if_pos hv] at h
        cases hp : t.is_posted with
        | true => rw [hp] at h; simp at h
        | false =>
          rw [hp] at h
          simp only [Bool.false_eq_true, if_false] at h
          have hs' : s' = applyBalanceUpdates
              (setTxn s { t with status := .POSTED, is_posted := true }) tid := by
            cases h; rfl
          rw [hs']
          unfold applyBalanceUpdates
          rw [itemsOfTxn_setTxn, foldl_applyItem_getAccount, getAccount_setTxn]
      · rw [if_neg hv] at h
        cases h
  constructor
  · intro aid hempty
    rw [hmaster aid, hempty]
    cases getAccount s aid with
    | none => rfl
    | some a => simp
  · intro aid a hga
    rw [hmaster aid, hga, Option.map_some']
    cases hdb : a.is_debit_balance with
    | true =>
      have hmap : ((itemsOfTxn s tid).filter (fun it => it.accId == aid)).map (itemDelta a) =
          ((itemsOfTxn s tid).filter (fun it => it.accId == aid)).map
            (fun it => it.debit_amount - it.credit_amount) :=
        List.map_congr_left (fun it _ => by simp [itemDelta, hdb])
      rw [hmap, if_pos rfl]
    | false =>
      have hmap : ((itemsOfTxn s tid).filter (fun it => it.accId == aid)).map (itemDelta a) =
          ((itemsOfTxn s tid).filter (fun it => it.accId == aid)).map
            (fun it => it.credit_amount - it.debit_amount) :=
        List.map_congr_left (fun it _ => by simp [itemDelta, hdb])
      rw [hmap, if_neg (by simp)]

/-- Witness for C10 at the concrete scenario `c10State`: the untouched
account 9 is unchanged, and account 1 (DEBIT) gains exactly its item sum. -/
theorem post_transaction_balance_frame_witness :
    post_transaction c10State 3 = .ok c10Posted ∧
      getAccount c10Posted 9 = getAccount c10State 9 ∧
      getAccount c10State 1 = some c10Cash ∧
      getAccount c10Posted 1 = some { c10Cash with current_balance :=
        c10Cash.current_balance +
          (if c10Cash.is_debit_balance then
              (((itemsOfTxn c10State 3).filter (fun it => it.accId == 1)).map
                 (fun it => it.debit_amount - it.credit_amount)).sum
            else
              (((itemsOfTxn c10State 3).filter (fun it => it.accId == 1)).map
                 (fun it => it.credit_amount - it.debit_amount)).sum) } :=
  ⟨by rfl,
    (post_transaction_balance_frame c10State c10Posted 3 (by rfl)).1 9 (by rfl),
    by rfl,
    (post_transaction_balance_frame c10State c10Posted 3 (by rfl)).2 1 c10Cash (by rfl)⟩

lemma unbalancedTxn_mem_validateErrors {s : State} {tid : Nat}
    (h : txn_is_balanced s tid = false) :
    VErr.unbalancedTxn ∈ validateErrors s tid := by
  unfold validateErrors
  simp [h]

lemma addItems_spec (l : List ItemInput) (s : State) (eid : Nat) :
    ∃ newRows : List JournalItem,
      (addItems s eid l).items = s.items ++ newRows ∧
      (addItems s eid l).entries = s.entries ∧
      (addItems s eid l).transactions = s.transactions ∧
      (addItems s eid l).nextId = s.nextId + l.length ∧
      (∀ it ∈ newRows, it.entryId = eid) ∧
      newRows.map (fun it => (it.debit_amount, it.credit_amount)) =
        l.map (fun i => (i.debit_amount, i.credit_amount)) := by
  induction l generalizing s with
  | nil =>
    exact ⟨[], by simp [addItems], rfl, rfl, by simp [addItems], by simp, by simp⟩
  | cons i rest ih =>
    have hstep : addItems s eid (i :: rest) =
        addItems { s with
          items := s.items ++
            [{ itemId := s.nextId, entryId := eid, accId := i.account_id,
               debit_amount := i.debit_amount, credit_amount := i.credit_amount }]
          nextId := s.nextId + 1 } eid rest := rfl
    obtain ⟨rows, h1, h2, h3, h4, h5, h6⟩ := ih
      { s with
        items := s.items ++
          [{ itemId := s.nextId, entryId := eid, accId := i.account_id,
             debit_amount := i.debit_amount, credit_amount := i.credit_amount }]
        nextId := s.nextId + 1 }
    refine ⟨{ itemId := s.nextId, entryId := eid, accId := i.account_id,
              debit_amount := i.debit_amount, credit_amount := i.credit_amount } :: rows,
      ?_, ?_, ?_, ?_, ?_, ?_⟩
    · rw [hstep, h1]; simp
    · rw [hstep, h2]
    · rw [hstep, h3]
    · rw [hstep, h4]; simp; omega
    · intro it hit
      rcases List.mem_cons.mp hit with hfirst | hrest
      · rw [hfirst]
      · exact h5 it hrest
    · rw [List.map_cons, List.map_cons, h6]

lemma processEntries_empty_item_error (l : List EntryInput) (s : State) (tid : Nat)
    (h : ∃ e ∈ l, e.items = []) :
    ∃ err, processEntries s tid l = .error err := by
  induction l generalizing s with
  | nil => simp at h
  | cons e rest ih =>
    by_cases he : e.items.isEmpty
    · refine ⟨.validation [VErr.entryNoItems s.nextId], ?_⟩
      unfold processEntries
      rw [if_pos he]
    · obtain ⟨e', he', hempty⟩ := h
      rcases List.mem_cons.mp he' with hfirst | hrest
      · exfalso
        rw [← hfirst, hempty] at he
        exact he rfl
      · obtain ⟨err, herr⟩ := ih _ ⟨e', hrest, hempty⟩
        refine ⟨err, ?_⟩
        unfold processEntries
        rw [if_neg he]
        exact herr

/-- Creating a transaction's entries and items appends exactly the input's
(debit, credit) pairs to the transaction's stored items. -/
lemma processEntries_ok_itemVals (l : List EntryInput) (s s2 : State) (tid : Nat)
    (hok : processEntries s tid l = .ok s2)
    (hents : ∀ e ∈ s.entries, e.entryId < s.nextId)
    (hitems : ∀ it ∈ s.items, it.entryId < s.nextId) :
    itemVals s2 tid = itemVals s tid ++ entryInputVals l := by
  induction l generalizing s with
  | nil =>
    cases hok
    simp [entryInputVals]
  | cons e rest ih =>
    unfold processEntries at hok
    by_cases he : e.items.isEmpty
    · rw [if_pos he] at hok; cases hok
    · rw [if_neg he] at hok
      obtain ⟨rows, h1, h2, h3, h4, h5, h6⟩ := addItems_spec e.items
        { s with
            entries := s.entries ++ [{ entryId := s.nextId, txId := tid, amount := e.amount }]
            nextId := s.nextId + 1 } s.nextId
      set sI := addItems
        { s with
            entries := s.entries ++ [{ entryId := s.nextId, txId := tid, amount := e.amount }]
            nextId := s.nextId + 1 } s.nextId e.items with hsI
      have hsIentries : sI.entries =
          s.entries ++ [{ entryId := s.nextId, txId := tid, amount := e.amount }] := h2
      have hsIitems : sI.items = s.items ++ rows := h1
      have hsInext : sI.nextId = s.nextId + 1 + e.items.length := h4
      have hents' : ∀ e' ∈ sI.entries, e'.entryId < sI.nextId := by
        intro e' he'
        rw [hsIentries] at he'
        rw [hsInext]
        rcases List.mem_append.mp he' with hold | hnew
        · have := hents e' hold; omega
        · simp at hnew
          rw [hnew]
          show s.nextId < s.nextId + 1 + e.items.length
          omega
      have hitems' : ∀ it ∈ sI.items, it.entryId < sI.nextId := by
        intro it hit
        rw [hsIitems] at hit
        rw [hsInext]
        rcases List.mem_append.mp hit with hold | hnew
        · have := hitems it hold; omega
        · rw [h5 it hnew]
          omega
      have hIH := ih sI hok hents' hitems'
      have hmid : itemVals sI tid = itemVals s tid ++
          e.items.map (fun i => (i.debit_amount, i.credit_amount)) := by
        unfold itemVals itemsOfTxn
        have hentOf : entriesOf sI tid =
            entriesOf s tid ++ [{ entryId := s.nextId, txId := tid, amount := e.amount }] := by
          unfold entriesOf
          rw [hsIentries, List.filter_append]
          simp
        rw [hentOf, List.flatMap_append]
        have hoLD : (entriesOf s tid).flatMap (fun e' => itemsOf sI e'.entryId) =
            (entriesOf s tid).flatMap (fun e' => itemsOf s e'.entryId) := by
          apply flatMap_congr
          intro e' he'
          have he'mem : e' ∈ s.entries := List.mem_of_mem_filter he'
          have he'lt : e'.entryId < s.nextId := hents e' he'mem
          unfold itemsOf
          rw [hsIitems, List.filter_append]
          have hrows : rows.filter (fun it => it.entryId == e'.entryId) = [] := by
            apply List.filter_eq_nil_iff.mpr
            intro it hit
            have := h5 it hit
            simp [this]
            omega
          rw [hrows, List.append_nil]
        have hNEW : ([{ entryId := s.nextId, txId := tid, amount := e.amount }] : List JournalEntry).flatMap
            (fun e' => itemsOf sI e'.entryId) = rows := by
          simp only [List.flatMap_cons, List.flatMap_nil, List.append_nil]
          unfold itemsOf
          rw [hsIitems, List.filter_append]
          have hsitems : s.items.filter
              (fun it => it.entryId == ({ entryId := s.nextId, txId := tid, amount := e.amount } : JournalEntry).entryId) = [] := by
            apply List.filter_eq_nil_iff.mpr
            intro it hit
            have := hitems it hit
            simp
            omega
          have hrows : rows.filter
              (fun it => it.entryId == ({ entryId := s.nextId, txId := tid, amount := e.amount } : JournalEntry).entryId) = rows := by
            apply List.filter_eq_self.mpr
            intro it hit
            simp [h5 it hit]
          rw [hsitems, hrows, List.nil_append]
        rw [hoLD, hNEW, List.map_append, h6]
      rw [hIH, hmid, List.append_assoc]
      congr 1
      unfold entryInputVals
      rw [List.flatMap_cons, List.map_append]

lemma get_total_debits_from_itemVals (s : State) (tid : Nat) :
    get_total_debits s tid = ((itemVals s tid).map Prod.fst).sum := by
  unfold get_total_debits itemVals
  rw [List.map_map]
  rfl

lemma get_total_credits_from_itemVals (s : State) (tid : Nat) :
    get_total_credits s tid = ((itemVals s tid).map Prod.snd).sum := by
  unfold get_total_credits itemVals
  rw [List.map_map]
  rfl

lemma inputDebits_from_vals (input : TxnInput) :
    inputDebits input = ((entryInputVals input.journal_entries_data).map Prod.fst).sum := by
  unfold inputDebits entryInputVals inputItems
  rw [List.map_map]
  rfl

lemma inputCredits_from_vals (input : TxnInput) :
    inputCredits input = ((entryInputVals input.journal_entries_data).map Prod.snd).sum := by
  unfold inputCredits entryInputVals inputItems
  rw [List.map_map]
  rfl

/-- **C5.** `create_transaction` is all-or-nothing: for an input that fails
validation — an empty journal-entry list, an entry with an empty item list,
or unbalanced totals — it raises a `ValidationError`, and the atomic block
leaves the database exactly as before the call (so the stored `Transaction`,
`JournalEntry` and `JournalItem` counts are unchanged). -/
theorem create_transaction_all_or_nothing (s : State) (today : ℤ) (input : TxnInput)
    (hwf : WfIds s)
    (hbad : input.journal_entries_data = [] ∨
        (∃ e ∈ input.journal_entries_data, e.items = []) ∨
        inputDebits input ≠ inputCredits input) :
    (∃ err, create_transaction s today input = .error err) ∧
    create_transaction_state s today input = s := by
  have herr : ∃ err, create_transaction s today input = .error err := by
    cases hres : create_transaction s today input with
    | error err => exact ⟨err, rfl⟩
    | ok p =>
      exfalso
      unfold create_transaction at hres
      dsimp only at hres
      by_cases hl : input.journal_entries_data.isEmpty
      · rw [if_pos hl] at hres
        exact Except.noConfusion hres
      · rw [if_neg hl] at hres
        set s1 : State := { s with
            transactions := s.transactions ++
              [{ txId := s.nextId, transaction_date := input.transaction_date,
                 amount := input.amount, status := .DRAFT, is_posted := false }]
            nextId := s.nextId + 1 } with hs1
        rcases hbad with hA | hB | hC
        · rw [hA] at hl
          exact hl rfl
        · obtain ⟨err, herr2⟩ :=
            processEntries_empty_item_error input.journal_entries_data s1 s.nextId hB
          rw [herr2] at hres
          exact Except.noConfusion hres
        · split at hres
          · exact Except.noConfusion hres
          · rename_i s2 heq
            split at hres
            · rename_i hv
              have hents1 : ∀ e ∈ s1.entries, e.entryId < s1.nextId := by
                intro e he
                have := (hwf.1 e he).2
                show e.entryId < s.nextId + 1
                omega
              have hitems1 : ∀ it ∈ s1.items, it.entryId < s1.nextId := by
                intro it hit
                have := hwf.2 it hit
                show it.entryId < s.nextId + 1
                omega
              have hIV := processEntries_ok_itemVals input.journal_entries_data s1 s2
                s.nextId heq hents1 hitems1
              have hent0 : entriesOf s1 s.nextId = [] := by
                unfold entriesOf
                apply List.filter_eq_nil_iff.mpr
                intro e he
                have := (hwf.1 e he).1
                simp
                omega
              have hIV1 : itemVals s1 s.nextId = [] := by
                unfold itemVals itemsOfTxn
                rw [hent0]
                rfl
              have hIVfull : itemVals s2 s.nextId =
                  entryInputVals input.journal_entries_data := by
                rw [hIV, hIV1, List.nil_append]
              have hd : get_total_debits s2 s.nextId = inputDebits input := by
                rw [get_total_debits_from_itemVals, hIVfull, inputDebits_from_vals]
              have hcr : get_total_credits s2 s.nextId = inputCredits input := by
                rw [get_total_credits_from_itemVals, hIVfull, inputCredits_from_vals]
              have hb : txn_is_balanced s2 s.nextId = false := by
                unfold txn_is_balanced
                rw [hd, hcr]
                simp [hC]
              have hmem := unbalancedTxn_mem_validateErrors hb
              rw [hv] at hmem
              exact absurd hmem (List.not_mem_nil _)
            · exact Except.noConfusion hres
  obtain ⟨err, he⟩ := herr
  refine ⟨⟨err, he⟩, ?_⟩
  unfold create_transaction_state
  rw [he]

/-- Witness for C5 at the concrete scenario: creating the unbalanced
500-debit / 400-credit input on the empty ledger `c5State` fails and
persists nothing. -/
theorem create_transaction_all_or_nothing_witness :
    WfIds c5State ∧ inputDebits c5Input ≠ inputCredits c5Input ∧
      ((∃ err, create_transaction c5State 5 c5Input = .error err) ∧
        create_transaction_state c5State 5 c5Input = c5State) :=
  ⟨by decide, by decide,
    create_transaction_all_or_nothing c5State 5 c5Input (by decide)
      (Or.inr (Or.inr (by decide)))⟩

/-- **C2 (evaluation at the failing input).** Posting the balanced
transaction of `c2State` succeeds, but `void_transaction` on the freshly
posted transaction fails with the `AttributeError` raised by
`entry.journalentry_set` inside `Transaction.reverse_transaction`
(wrapped into "Failed to void transaction" by the service), and the
rolled-back call leaves the state unchanged — no reversal is created, no
balance is restored, and the original transaction never becomes VOIDED. -/
theorem void_after_post_always_fails :
    post_transaction c2State 3 = .ok c2Posted ∧
    void_transaction c2Posted 3 6 = .error SvcErr.attrError ∧
    void_transaction_state c2Posted 3 6 = c2Posted ∧
    (getTxn c2Posted 3).map (fun t => t.status) = some Status.POSTED := by
  refine ⟨by rfl, by rfl, by rfl, by rfl⟩

/-- **C6 (evaluation at the failing input).** From the empty two-asset-account
ledger `c6Base`, creating and posting the balanced transaction that debits
account 2 by 100 and credits account 1 by 100 — both steps succeeding through
the service — produces a ledger whose trial balance reports
`total_debits = 100`, `total_credits = 0` and a nonzero `difference`:
account 1's balance is `-100`, and `_get_all_account_balances` clamps the
negative balance to `0` instead of reporting it in the opposite column. -/
theorem trial_balance_difference_nonzero :
    create_transaction c6Base 10 c6Input = .ok (c6Created, 3) ∧
    post_transaction c6Created 3 = .ok c6PostedState ∧
    (generate_trial_balance c6PostedState 10).total_debits = 100 ∧
    (generate_trial_balance c6PostedState 10).total_credits = 0 ∧
    (generate_trial_balance c6PostedState 10).difference ≠ 0 := by
  refine ⟨by rfl, by rfl, by rfl, by rfl, by decide⟩

/-- **C8 (evaluation at the failing input).** For the CREDIT-balance
liability account of `c8State` (one posted credit of 100 dated day 10), the
general ledger over days 1-20 annotates the single entry with running balance
`-100`, while `get_balance` at that entry's transaction date is `+100`: the
running-balance loop starts from the negated opening balance but applies raw
un-negated deltas, so the key round-trip property fails for CREDIT-balance
accounts.  (The report's opening and closing balances themselves are the
`get_balance` values the claim states.) -/
theorem ledger_running_balance_mismatch :
    generate_general_ledger c8State c8Liab 1 20 =
      { opening_balance := 0, closing_balance := 100,
        entries := [(c8Item, -100)] } ∧
    get_balance c8State c8Liab (some 10) = 100 ∧
    ((-100 : ℤ) ≠ get_balance c8State c8Liab (some 10)) := by
  refine ⟨by rfl, by rfl, by decide⟩

/-- **C9 (evaluation at the failing input).** With "today" = day 10,
`create_transaction` accepts the balanced input dated day 11 and persists the
future-dated transaction — the service builds the row with
`Transaction.objects.create`, which never runs `Transaction.clean` /
`full_clean`, and `validate_transaction` has no date check.  The last
conjunct shows `Transaction.clean` itself would have rejected the date,
which is what the claim (and the model's own validation) expects. -/
theorem create_transaction_accepts_future_date :
    create_transaction c9State 10 c9Input = .ok (c9Created, 3) ∧
    c9Created.transactions.length = c9State.transactions.length + 1 ∧
    getTxn c9Created 3 = some { txId := 3, transaction_date := 11, amount := 100,
                                status := .DRAFT, is_posted := false } ∧
    transaction_clean { txId := 3, transaction_date := 11, amount := 100,
                        status := .DRAFT, is_posted := false } 10 =
      .error (.validation [VErr.futureDate]) := by
  refine ⟨by rfl, by rfl, by rfl, by rfl⟩

end AccountingAPI
